import Mathlib

/-!
Verification of the 2d-drone-sim control-loop engine.

The development shallowly embeds the engine's source:
* `JsNum` models a JavaScript IEEE-754 double for the arithmetic the
  reusable PID controller performs: exact rational values extended with the
  two infinities and NaN.  Rounding is not modelled (every double is a
  rational and the properties at issue concern exact values), and the
  negative zero is collapsed onto zero (every divisor that can reach zero in
  the source is the positive value `ki = 0`).
* `DorneSim.PIDController` embeds `src/app/components/DorneSim/PIDController.ts`.
* `DorneSim.updatePhysics` and `DorneSim.calculateDisturbances` embed the
  corresponding functions of `src/app/components/DorneSim/DorneSim.tsx`;
  the calls to `Math.random()` are passed in as explicit parameters and the
  wind clock `windStateRef.current.time` is explicit state.
* The `CartPole` namespace embeds the physics, controller and interval tick
  of `src/app/components/CartPole/CartPole.tsx` over the real numbers.
-/

open Real

/-- A JavaScript number, for the PID controller arithmetic: an exact
rational, one of the two infinities, or NaN. -/
inductive JsNum where
  | fin : ℚ → JsNum
  | posInf : JsNum
  | negInf : JsNum
  | nan : JsNum
  deriving DecidableEq

/-- JavaScript `+` (IEEE-754 addition, exact on the finite part). -/
def jsAdd : JsNum → JsNum → JsNum
  | JsNum.nan, _ => JsNum.nan
  | _, JsNum.nan => JsNum.nan
  | JsNum.fin x, JsNum.fin y => JsNum.fin (x + y)
  | JsNum.fin _, JsNum.posInf => JsNum.posInf
  | JsNum.fin _, JsNum.negInf => JsNum.negInf
  | JsNum.posInf, JsNum.fin _ => JsNum.posInf
  | JsNum.negInf, JsNum.fin _ => JsNum.negInf
  | JsNum.posInf, JsNum.posInf => JsNum.posInf
  | JsNum.negInf, JsNum.negInf => JsNum.negInf
  | JsNum.posInf, JsNum.negInf => JsNum.nan
  | JsNum.negInf, JsNum.posInf => JsNum.nan

/-- JavaScript `-` (IEEE-754 subtraction, exact on the finite part). -/
def jsSub : JsNum → JsNum → JsNum
  | JsNum.nan, _ => JsNum.nan
  | _, JsNum.nan => JsNum.nan
  | JsNum.fin x, JsNum.fin y => JsNum.fin (x - y)
  | JsNum.fin _, JsNum.posInf => JsNum.negInf
  | JsNum.fin _, JsNum.negInf => JsNum.posInf
  | JsNum.posInf, JsNum.fin _ => JsNum.posInf
  | JsNum.negInf, JsNum.fin _ => JsNum.negInf
  | JsNum.posInf, JsNum.posInf => JsNum.nan
  | JsNum.negInf, JsNum.negInf => JsNum.nan
  | JsNum.posInf, JsNum.negInf => JsNum.posInf
  | JsNum.negInf, JsNum.posInf => JsNum.negInf

/-- JavaScript `*` (IEEE-754 multiplication; `0 * ±∞ = NaN`). -/
def jsMul : JsNum → JsNum → JsNum
  | JsNum.nan, _ => JsNum.nan
  | _, JsNum.nan => JsNum.nan
  | JsNum.fin x, JsNum.fin y => JsNum.fin (x * y)
  | JsNum.fin x, JsNum.posInf =>
      if 0 < x then JsNum.posInf else if x < 0 then JsNum.negInf else JsNum.nan
  | JsNum.fin x, JsNum.negInf =>
      if 0 < x then JsNum.negInf else if x < 0 then JsNum.posInf else JsNum.nan
  | JsNum.posInf, JsNum.fin y =>
      if 0 < y then JsNum.posInf else if y < 0 then JsNum.negInf else JsNum.nan
  | JsNum.negInf, JsNum.fin y =>
      if 0 < y then JsNum.negInf else if y < 0 then JsNum.posInf else JsNum.nan
  | JsNum.posInf, JsNum.posInf => JsNum.posInf
  | JsNum.posInf, JsNum.negInf => JsNum.negInf
  | JsNum.negInf, JsNum.posInf => JsNum.negInf
  | JsNum.negInf, JsNum.negInf => JsNum.posInf

/-- JavaScript `/` (IEEE-754 division; `x / 0` with the positive zero gives
`±∞` by the sign of `x` and `0 / 0 = NaN`; `±∞ / ±∞ = NaN`). -/
def jsDiv : JsNum → JsNum → JsNum
  | JsNum.nan, _ => JsNum.nan
  | _, JsNum.nan => JsNum.nan
  | JsNum.fin x, JsNum.fin y =>
      if y = 0 then
        if 0 < x then JsNum.posInf else if x < 0 then JsNum.negInf else JsNum.nan
      else JsNum.fin (x / y)
  | JsNum.fin _, JsNum.posInf => JsNum.fin 0
  | JsNum.fin _, JsNum.negInf => JsNum.fin 0
  | JsNum.posInf, JsNum.fin y => if 0 ≤ y then JsNum.posInf else JsNum.negInf
  | JsNum.negInf, JsNum.fin y => if 0 ≤ y then JsNum.negInf else JsNum.posInf
  | JsNum.posInf, _ => JsNum.nan
  | JsNum.negInf, _ => JsNum.nan

/-- JavaScript `Math.max` (NaN-propagating). -/
def jsMax : JsNum → JsNum → JsNum
  | JsNum.nan, _ => JsNum.nan
  | _, JsNum.nan => JsNum.nan
  | JsNum.posInf, _ => JsNum.posInf
  | _, JsNum.posInf => JsNum.posInf
  | JsNum.negInf, b => b
  | a, JsNum.negInf => a
  | JsNum.fin x, JsNum.fin y => JsNum.fin (max x y)

/-- JavaScript `Math.min` (NaN-propagating). -/
def jsMin : JsNum → JsNum → JsNum
  | JsNum.nan, _ => JsNum.nan
  | _, JsNum.nan => JsNum.nan
  | JsNum.negInf, _ => JsNum.negInf
  | _, JsNum.negInf => JsNum.negInf
  | JsNum.posInf, b => b
  | a, JsNum.posInf => a
  | JsNum.fin x, JsNum.fin y => JsNum.fin (min x y)

namespace DorneSim

/-- The mutable state of the reusable PID controller of
`src/app/components/DorneSim/PIDController.ts`: the constructor fields
`kp, ki, kd, outputMin, outputMax` and the private fields
`prevError, integral, lastTime`. -/
structure PIDController where
  kp : JsNum
  ki : JsNum
  kd : JsNum
  outputMin : JsNum
  outputMax : JsNum
  prevError : JsNum
  integral : JsNum
  lastTime : Option JsNum
  deriving DecidableEq

/-- The constructor `new PIDController(kp, ki, kd, outputMin, outputMax)`:
`prevError = 0`, `integral = 0`, `lastTime = null`.  In the source
`outputMin` and `outputMax` default to `-Infinity` and `Infinity` when the
caller omits them. -/
def PIDController.make (kp ki kd outputMin outputMax : JsNum) : PIDController :=
  ⟨kp, ki, kd, outputMin, outputMax, JsNum.fin 0, JsNum.fin 0, none⟩

/-- `PIDController.update(setpoint, measured, dt)`, line for line from the
source: error, unconditional integral accumulation, the anti-windup clamp
(which always divides by `ki`), derivative, output, output clamp.  Returns
the output together with the controller state after the call. -/
def PIDController.update (c : PIDController) (setpoint measured dt : JsNum) :
    JsNum × PIDController :=
  let error := jsSub setpoint measured
  let integral0 := jsAdd c.integral (jsMul error dt)
  let maxIntegral := jsDiv (jsSub c.outputMax (jsMul c.kp error)) c.ki
  let minIntegral := jsDiv (jsSub c.outputMin (jsMul c.kp error)) c.ki
  let integral1 := jsMin (jsMax integral0 minIntegral) maxIntegral
  let derivative := jsDiv (jsSub error c.prevError) dt
  let output := jsAdd (jsAdd (jsMul c.kp error) (jsMul c.ki integral1)) (jsMul c.kd derivative)
  let clamped := jsMin (jsMax output c.outputMin) c.outputMax
  (clamped, { c with prevError := error, integral := integral1 })

/-- `PIDController.reset()`: zeroes `prevError` and `integral`, nulls
`lastTime`. -/
def PIDController.reset (c : PIDController) : PIDController :=
  { c with prevError := JsNum.fin 0, integral := JsNum.fin 0, lastTime := none }

/-- `PIDController.setGains(kp, ki, kd)`: replaces the three gains only. -/
def PIDController.setGains (c : PIDController) (kp ki kd : JsNum) : PIDController :=
  { c with kp := kp, ki := ki, kd := kd }

/-- `PhysicsParams` of `src/app/components/DorneSim/types.ts` (extended
variant used by `DorneSim.tsx`). -/
structure PhysicsParams where
  GRAVITY : ℝ
  MASS : ℝ
  MOMENT_OF_INERTIA : ℝ
  DRAG_COEFFICIENT : ℝ
  ANGULAR_DRAG_COEFFICIENT : ℝ
  THRUST_DISTANCE : ℝ
  CENTER_OF_MASS_OFFSET : ℝ
  LEFT_THRUST_EFFICIENCY : ℝ
  RIGHT_THRUST_EFFICIENCY : ℝ

/-- `DEFAULT_PHYSICS_PARAMS` of `DorneSim.tsx`. -/
noncomputable def DEFAULT_PHYSICS_PARAMS : PhysicsParams :=
  ⟨9.8, 1.0, 0.1, 0.1, 0.5, 0.4, 0.0, 1.0, 1.0⟩

/-- 2-D position. -/
structure Position where
  x : ℝ
  y : ℝ

/-- 2-D velocity. -/
structure Velocity where
  x : ℝ
  y : ℝ

/-- The drone `PhysicsState`. -/
structure PhysicsState where
  position : Position
  velocity : Velocity
  rotation : ℝ
  angularVelocity : ℝ

/-- Wind sub-model configuration. -/
structure WindDisturbance where
  enabled : Bool
  baseSpeed : ℝ
  gustFrequency : ℝ
  gustMagnitude : ℝ
  turbulenceIntensity : ℝ

/-- Thrust-noise sub-model configuration (`frequency` is accepted but
unused by the noise formula). -/
structure ThrustNoise where
  enabled : Bool
  magnitude : ℝ
  frequency : ℝ

/-- Full disturbance configuration. -/
structure DisturbanceConfig where
  wind : WindDisturbance
  thrust : ThrustNoise

/-- What `calculateDisturbances` produces in one tick, together with the
updated wind clock (`windStateRef.current.time`). -/
structure DisturbanceResult where
  windForce : ℝ
  noiseLeft : ℝ
  noiseRight : ℝ
  newWindTime : ℝ

/-- `calculateDisturbances(deltaTime)` of `DorneSim.tsx`.  The wind clock
`windStateRef.current.time` is passed in as `windTime`, and the three
`Math.random()` draws of the tick are passed in as `r1` (turbulence),
`r2` (left noise), `r3` (right noise).  While the wind model is enabled the
clock is advanced by `deltaTime` first and the gust phase uses the advanced
clock. -/
noncomputable def calculateDisturbances (cfg : DisturbanceConfig)
    (windTime deltaTime r1 r2 r3 : ℝ) : DisturbanceResult :=
  let newTime := if cfg.wind.enabled then windTime + deltaTime else windTime
  let windForce : ℝ :=
    if cfg.wind.enabled then
      cfg.wind.baseSpeed +
        (Real.sin (2 * π * cfg.wind.gustFrequency * newTime) * cfg.wind.gustMagnitude +
          (r1 - 0.5) * 2 * cfg.wind.turbulenceIntensity)
    else 0
  let noiseLeft : ℝ :=
    if cfg.thrust.enabled then 1 + (r2 - 0.5) * 2 * cfg.thrust.magnitude else 1
  let noiseRight : ℝ :=
    if cfg.thrust.enabled then 1 + (r3 - 0.5) * 2 * cfg.thrust.magnitude else 1
  ⟨windForce, noiseLeft, noiseRight, newTime⟩

/-- The integration stage of `updatePhysics` in `DorneSim.tsx`
(lines computing effective thrusts through `newPositionX`), before the
boundary clamp.  `currentLeftThrust`/`currentRightThrust` are the
actuation values after the optional PID mixing, `windForce` and the two
noise factors come from `calculateDisturbances`, and `dt` is
`deltaTime / 100`. -/
noncomputable def unclampedStep (params : PhysicsParams) (s : PhysicsState)
    (currentLeftThrust currentRightThrust windForce noiseLeft noiseRight dt : ℝ) :
    PhysicsState :=
  let effectiveLeftThrust := currentLeftThrust * params.LEFT_THRUST_EFFICIENCY * noiseLeft
  let effectiveRightThrust := currentRightThrust * params.RIGHT_THRUST_EFFICIENCY * noiseRight
  let totalThrust := effectiveLeftThrust + effectiveRightThrust
  let torque := effectiveRightThrust * (params.THRUST_DISTANCE + params.CENTER_OF_MASS_OFFSET) -
    effectiveLeftThrust * (params.THRUST_DISTANCE - params.CENTER_OF_MASS_OFFSET)
  let angularAcceleration :=
    (torque - params.ANGULAR_DRAG_COEFFICIENT * s.angularVelocity) / params.MOMENT_OF_INERTIA
  let newAngularVelocity := s.angularVelocity + angularAcceleration * dt
  let newRotation := s.rotation + newAngularVelocity * dt
  let thrustForceY := totalThrust * Real.cos s.rotation
  let thrustForceX := totalThrust * Real.sin s.rotation + windForce
  let gravityForce := params.MASS * params.GRAVITY
  let dragForceY := params.DRAG_COEFFICIENT * s.velocity.y * |s.velocity.y|
  let dragForceX := params.DRAG_COEFFICIENT * s.velocity.x * |s.velocity.x|
  let verticalAcceleration := (thrustForceY - gravityForce - dragForceY) / params.MASS
  let horizontalAcceleration := (thrustForceX - dragForceX) / params.MASS
  let newVelocityY := s.velocity.y + verticalAcceleration * dt
  let newVelocityX := s.velocity.x + horizontalAcceleration * dt
  let newPositionY := s.position.y - newVelocityY * dt
  let newPositionX := s.position.x + newVelocityX * dt
  { position := { x := newPositionX, y := newPositionY },
    velocity := { x := newVelocityX, y := newVelocityY },
    rotation := newRotation,
    angularVelocity := newAngularVelocity }

/-- The boundary stage of `updatePhysics` in `DorneSim.tsx`: position
clamped into the rectangle `[10, 590] × [10, 290]`, the axis velocity
zeroed exactly when the clamped coordinate sits on a bound. -/
noncomputable def clampBounds (r : PhysicsState) : PhysicsState :=
  let finalPositionY := min (max r.position.y 10) 290
  let finalPositionX := min (max r.position.x 10) 590
  let finalVelocityY : ℝ :=
    if finalPositionY = 10 ∨ finalPositionY = 290 then 0 else r.velocity.y
  let finalVelocityX : ℝ :=
    if finalPositionX = 10 ∨ finalPositionX = 590 then 0 else r.velocity.x
  { position := { x := finalPositionX, y := finalPositionY },
    velocity := { x := finalVelocityX, y := finalVelocityY },
    rotation := r.rotation,
    angularVelocity := r.angularVelocity }

/-- The physics part of `updatePhysics` in `DorneSim.tsx`: integration then
boundary clamp. -/
noncomputable def updatePhysics (params : PhysicsParams) (s : PhysicsState)
    (currentLeftThrust currentRightThrust windForce noiseLeft noiseRight dt : ℝ) :
    PhysicsState :=
  clampBounds
    (unclampedStep params s currentLeftThrust currentRightThrust windForce noiseLeft noiseRight dt)

end DorneSim

/-- Truncation toward zero, the rounding JavaScript's `%` applies to the
quotient. -/
noncomputable def truncInt (x : ℝ) : ℤ := if 0 ≤ x then ⌊x⌋ else ⌈x⌉

/-- The JavaScript remainder `a % b`: `a - b * trunc(a / b)`, exact over
the reals (rounding of the IEEE operation is not modelled). -/
noncomputable def jsMod (a b : ℝ) : ℝ := a - b * (truncInt (a / b) : ℝ)

namespace CartPole

/-- Physics constants of `CartPole.tsx`. -/
noncomputable def gravity : ℝ := 9.81

/-- Cart mass. -/
noncomputable def cartMass : ℝ := 1.0

/-- Pole mass. -/
noncomputable def poleMass : ℝ := 0.1

/-- `totalMass = cartMass + poleMass`. -/
noncomputable def totalMass : ℝ := cartMass + poleMass

/-- Pole length. -/
noncomputable def poleLength : ℝ := 0.5

/-- Fixed integration step. -/
noncomputable def dt : ℝ := 0.02

/-- Cart-pole force bound. -/
noncomputable def maxForce : ℝ := 15.0

/-- `CartPoleState` of `CartPole.tsx`. -/
structure CartPoleState where
  x : ℝ
  theta : ℝ
  dx : ℝ
  dtheta : ℝ
  score : ℕ

/-- The cart-pole's own `PIDController` record (`target`, gains,
`integral`, `lastError`). -/
structure PIDController where
  target : ℝ
  kp : ℝ
  ki : ℝ
  kd : ℝ
  integral : ℝ
  lastError : ℝ

/-- `calculatePIDControl(state, controller)` of `CartPole.tsx`: error is
`state.theta - controller.target`, the integral accumulates
unconditionally, only the final output is clamped into
`[-maxForce, maxForce]`.  The source mutates `controller` in place; here
the mutated controller is returned alongside the output. -/
noncomputable def calculatePIDControl (state : CartPoleState) (controller : PIDController) :
    ℝ × PIDController :=
  let error := state.theta - controller.target
  let integral := controller.integral + error * dt
  let derivative := (error - controller.lastError) / dt
  let output := controller.kp * error + controller.ki * integral + controller.kd * derivative
  (max (-maxForce) (min maxForce output),
    { controller with integral := integral, lastError := error })

/-- The angle normalisation inlined in `updatePhysics` of `CartPole.tsx`:
`normalizedTheta = ((newTheta % 2π) + 2π) % 2π` followed by subtracting
`2π` when the result exceeds `π`. -/
noncomputable def normalizeAngle (newTheta : ℝ) : ℝ :=
  let normalizedTheta := jsMod (jsMod newTheta (2 * π) + 2 * π) (2 * π)
  if normalizedTheta > π then normalizedTheta - 2 * π else normalizedTheta

/-- `updatePhysics(currentState, appliedForce)` of `CartPole.tsx`. -/
noncomputable def updatePhysics (currentState : CartPoleState) (appliedForce : ℝ) :
    CartPoleState :=
  let cosTheta := Real.cos currentState.theta
  let sinTheta := Real.sin currentState.theta
  let poleForce := poleMass * poleLength * currentState.dtheta * currentState.dtheta * sinTheta
  let temp := totalMass - poleMass * cosTheta * cosTheta
  let ddtheta := (gravity * sinTheta * totalMass - (appliedForce + poleForce) * cosTheta) /
    (poleLength * temp)
  let ddx := (appliedForce + poleForce + poleMass * poleLength * ddtheta * cosTheta -
    poleMass * poleLength * currentState.dtheta * currentState.dtheta * sinTheta) / totalMass
  let newX := currentState.x + currentState.dx * dt
  let newTheta := currentState.theta + currentState.dtheta * dt
  let newDx := currentState.dx + ddx * dt
  let newDtheta := currentState.dtheta + ddtheta * dt
  { x := newX, theta := normalizeAngle newTheta, dx := newDx, dtheta := newDtheta,
    score := currentState.score + 1 }

/-- The body of the `setInterval` tick in `CartPole.tsx`, after the applied
force has been selected (manual or PID): compute the new state, and if it
violates `|x| ≤ 2.4` or `|θ| ≤ π/2` stop the run (`false`) and keep the
previous state, else keep running (`true`) with the new state. -/
noncomputable def intervalTick (current : CartPoleState) (currentForce : ℝ) :
    Bool × CartPoleState :=
  let newState := updatePhysics current currentForce
  if |newState.x| > 2.4 ∨ |newState.theta| > π * 0.5 then (false, current)
  else (true, newState)

/-- `n` successive `calculatePIDControl` calls against the same measured
state (sustained constant error). -/
noncomputable def pidIterate (state : CartPoleState) (controller : PIDController) :
    ℕ → PIDController
  | 0 => controller
  | n + 1 => (calculatePIDControl state (pidIterate state controller n)).2

end CartPole

/-- Claim C1: the code at the failing input.  The source has no `ki == 0`
special case: with gains `kp = 2, ki = 0, kd = 0`, output bounds
`[-1, 1]`, zeroed accumulator state, the call `update(1, 0, 1)` divides
`(outputMax - kp * error) = -1` by `ki = 0`, clamps the integral to `-∞`,
stores that non-finite integral, and returns NaN — the claimed bypass does
not happen and the integral does not stay at its accumulated value `1`. -/
theorem claim_C1_division_by_zero :
    (DorneSim.PIDController.update
        ⟨JsNum.fin 2, JsNum.fin 0, JsNum.fin 0, JsNum.fin (-1), JsNum.fin 1,
         JsNum.fin 0, JsNum.fin 0, none⟩
        (JsNum.fin 1) (JsNum.fin 0) (JsNum.fin 1)).2.integral = JsNum.negInf ∧
    (DorneSim.PIDController.update
        ⟨JsNum.fin 2, JsNum.fin 0, JsNum.fin 0, JsNum.fin (-1), JsNum.fin 1,
         JsNum.fin 0, JsNum.fin 0, none⟩
        (JsNum.fin 1) (JsNum.fin 0) (JsNum.fin 1)).1 = JsNum.nan := by
  norm_num [DorneSim.PIDController.update, jsSub, jsAdd, jsMul, jsDiv, jsMax, jsMin]

/-- Claim C5, counterexample: with `kp = 3, ki = 0, kd = 0`, bounds
`[-1, 1]`, fresh accumulator state, `update(1, 0, 1)` does not return
`clamp(kp * (setpoint - measured), outputMin, outputMax) = 1`: the
division of `outputMax - kp * error = -2` by `ki = 0` drives the integral
to `-∞` and the output to NaN. -/
theorem claim_C5_counterexample :
    (DorneSim.PIDController.update
        ⟨JsNum.fin 3, JsNum.fin 0, JsNum.fin 0, JsNum.fin (-1), JsNum.fin 1,
         JsNum.fin 0, JsNum.fin 0, none⟩
        (JsNum.fin 1) (JsNum.fin 0) (JsNum.fin 1)).1 ≠
      JsNum.fin (min (max (3 * (1 - 0)) (-1)) 1) := by
  norm_num [DorneSim.PIDController.update, jsSub, jsAdd, jsMul, jsDiv, jsMax, jsMin]
  exact fun h => JsNum.noConfusion h

/-- Claim C5, amended: with `ki = 0`, `kd = 0`, `dt > 0`, finite state, and
`kp * (setpoint - measured)` strictly between `outputMin` and `outputMax`
(so that the saturated corner that divides by `ki = 0` into a non-finite
integral is not hit), `update` returns exactly
`clamp(kp * (setpoint - measured), outputMin, outputMax)`. -/
theorem claim_C5_amended (kp mn mx pe ig s m dtv : ℚ) (lt0 : Option JsNum)
    (hdt : 0 < dtv) (h1 : mn < kp * (s - m)) (h2 : kp * (s - m) < mx) :
    (DorneSim.PIDController.update
        ⟨JsNum.fin kp, JsNum.fin 0, JsNum.fin 0, JsNum.fin mn, JsNum.fin mx,
         JsNum.fin pe, JsNum.fin ig, lt0⟩
        (JsNum.fin s) (JsNum.fin m) (JsNum.fin dtv)).1 =
      JsNum.fin (min (max (kp * (s - m)) mn) mx) := by
  have hx : 0 < mx - kp * (s - m) := by linarith
  have hy : ¬(0 < mn - kp * (s - m)) := by linarith
  have hy2 : mn - kp * (s - m) < 0 := by linarith
  simp only [DorneSim.PIDController.update, jsSub, jsAdd, jsMul, jsDiv, jsMax, jsMin,
    hdt.ne', if_true, if_false, eq_self_iff_true, hx, hy2]
  norm_num [hy]

/-- Claim C5 witness: a concrete unsaturated call where the amended claim
applies. -/
theorem claim_C5_witness :
    (DorneSim.PIDController.update
        ⟨JsNum.fin 1, JsNum.fin 0, JsNum.fin 0, JsNum.fin (-10), JsNum.fin 10,
         JsNum.fin 0, JsNum.fin 0, none⟩
        (JsNum.fin 2) (JsNum.fin 1) (JsNum.fin 1)).1 =
      JsNum.fin (min (max (1 * (2 - 1)) (-10)) 10) :=
  claim_C5_amended 1 (-10) 10 0 0 2 1 1 none (by norm_num) (by norm_num) (by norm_num)

/-- Claim C8: `reset()` zeroes only the integral accumulator and the stored
last error, leaving the gains and output bounds unchanged; `setGains`
replaces only the gains, leaving the accumulator state and bounds
unchanged; and an `update()` after `reset()` returns exactly what the same
`update()` returns on a freshly constructed controller with the same gains
and bounds. -/
theorem claim_C8_reset_setgains (c : DorneSim.PIDController)
    (kp2 ki2 kd2 s m dtv : JsNum) :
    (c.reset.kp = c.kp ∧ c.reset.ki = c.ki ∧ c.reset.kd = c.kd ∧
     c.reset.outputMin = c.outputMin ∧ c.reset.outputMax = c.outputMax ∧
     c.reset.integral = JsNum.fin 0 ∧ c.reset.prevError = JsNum.fin 0) ∧
    ((c.setGains kp2 ki2 kd2).kp = kp2 ∧ (c.setGains kp2 ki2 kd2).ki = ki2 ∧
     (c.setGains kp2 ki2 kd2).kd = kd2 ∧
     (c.setGains kp2 ki2 kd2).integral = c.integral ∧
     (c.setGains kp2 ki2 kd2).prevError = c.prevError ∧
     (c.setGains kp2 ki2 kd2).outputMin = c.outputMin ∧
     (c.setGains kp2 ki2 kd2).outputMax = c.outputMax) ∧
    c.reset.update s m dtv =
      (DorneSim.PIDController.make c.kp c.ki c.kd c.outputMin c.outputMax).update s m dtv :=
  ⟨⟨rfl, rfl, rfl, rfl, rfl, rfl, rfl⟩, ⟨rfl, rfl, rfl, rfl, rfl, rfl, rfl⟩, rfl⟩

/-- Claim C3: after every drone tick the position lies in
`[10, 590] × [10, 290]`, and whenever the unclamped new position exceeds a
bound on an axis the resulting position on that axis equals the bound
exactly and the resulting velocity on that axis is exactly `0`. -/
theorem claim_C3_drone_bounds (params : DorneSim.PhysicsParams)
    (s : DorneSim.PhysicsState) (lT rT wF nL nR dt : ℝ) :
    (10 ≤ (DorneSim.updatePhysics params s lT rT wF nL nR dt).position.x ∧
      (DorneSim.updatePhysics params s lT rT wF nL nR dt).position.x ≤ 590 ∧
      10 ≤ (DorneSim.updatePhysics params s lT rT wF nL nR dt).position.y ∧
      (DorneSim.updatePhysics params s lT rT wF nL nR dt).position.y ≤ 290) ∧
    (590 < (DorneSim.unclampedStep params s lT rT wF nL nR dt).position.x →
      (DorneSim.updatePhysics params s lT rT wF nL nR dt).position.x = 590 ∧
      (DorneSim.updatePhysics params s lT rT wF nL nR dt).velocity.x = 0) ∧
    ((DorneSim.unclampedStep params s lT rT wF nL nR dt).position.x < 10 →
      (DorneSim.updatePhysics params s lT rT wF nL nR dt).position.x = 10 ∧
      (DorneSim.updatePhysics params s lT rT wF nL nR dt).velocity.x = 0) ∧
    (290 < (DorneSim.unclampedStep params s lT rT wF nL nR dt).position.y →
      (DorneSim.updatePhysics params s lT rT wF nL nR dt).position.y = 290 ∧
      (DorneSim.updatePhysics params s lT rT wF nL nR dt).velocity.y = 0) ∧
    ((DorneSim.unclampedStep params s lT rT wF nL nR dt).position.y < 10 →
      (DorneSim.updatePhysics params s lT rT wF nL nR dt).position.y = 10 ∧
      (DorneSim.updatePhysics params s lT rT wF nL nR dt).velocity.y = 0) := by
  have hupd : DorneSim.updatePhysics params s lT rT wF nL nR dt =
      DorneSim.clampBounds (DorneSim.unclampedStep params s lT rT wF nL nR dt) := rfl
  set r := DorneSim.unclampedStep params s lT rT wF nL nR dt with hr
  rw [hupd]
  simp only [DorneSim.clampBounds]
  refine ⟨⟨le_min (le_max_right _ _) (by norm_num), min_le_right _ _,
    le_min (le_max_right _ _) (by norm_num), min_le_right _ _⟩, ?_, ?_, ?_, ?_⟩
  · intro h
    have h1 : max r.position.x 10 = r.position.x := max_eq_left (by linarith)
    have h2 : min (max r.position.x 10) 590 = 590 := by
      rw [h1]; exact min_eq_right (le_of_lt h)
    rw [h2]
    exact ⟨rfl, if_pos (Or.inr rfl)⟩
  · intro h
    have h1 : max r.position.x 10 = 10 := max_eq_right (le_of_lt h)
    have h2 : min (max r.position.x 10) 590 = 10 := by
      rw [h1]; exact min_eq_left (by norm_num)
    rw [h2]
    exact ⟨rfl, if_pos (Or.inl rfl)⟩
  · intro h
    have h1 : max r.position.y 10 = r.position.y := max_eq_left (by linarith)
    have h2 : min (max r.position.y 10) 290 = 290 := by
      rw [h1]; exact min_eq_right (le_of_lt h)
    rw [h2]
    exact ⟨rfl, if_pos (Or.inr rfl)⟩
  · intro h
    have h1 : max r.position.y 10 = 10 := max_eq_right (le_of_lt h)
    have h2 : min (max r.position.y 10) 290 = 10 := by
      rw [h1]; exact min_eq_left (by norm_num)
    rw [h2]
    exact ⟨rfl, if_pos (Or.inl rfl)⟩

/-- Claim C3 witness: a tick whose unclamped x-position `1000` exceeds the
upper bound `590` yields final position exactly `590` and x-velocity
exactly `0`. -/
theorem claim_C3_witness :
    590 < (DorneSim.unclampedStep DorneSim.DEFAULT_PHYSICS_PARAMS
        ⟨⟨1000, 150⟩, ⟨0, 0⟩, 0, 0⟩ 0 0 0 1 1 0).position.x ∧
    (DorneSim.updatePhysics DorneSim.DEFAULT_PHYSICS_PARAMS
        ⟨⟨1000, 150⟩, ⟨0, 0⟩, 0, 0⟩ 0 0 0 1 1 0).position.x = 590 ∧
    (DorneSim.updatePhysics DorneSim.DEFAULT_PHYSICS_PARAMS
        ⟨⟨1000, 150⟩, ⟨0, 0⟩, 0, 0⟩ 0 0 0 1 1 0).velocity.x = 0 := by
  have h : 590 < (DorneSim.unclampedStep DorneSim.DEFAULT_PHYSICS_PARAMS
      ⟨⟨1000, 150⟩, ⟨0, 0⟩, 0, 0⟩ 0 0 0 1 1 0).position.x := by
    simp only [DorneSim.unclampedStep]
    norm_num
  exact ⟨h, (claim_C3_drone_bounds DorneSim.DEFAULT_PHYSICS_PARAMS
    ⟨⟨1000, 150⟩, ⟨0, 0⟩, 0, 0⟩ 0 0 0 1 1 0).2.1 h⟩

/-- Claim C7: with the wind sub-model enabled the generator advances the
wind clock by exactly `deltaTime` and returns
`windForce = baseSpeed + gustMagnitude * sin(2π * gustFrequency * clock) + (r1 - 0.5) * 2 * turbulenceIntensity`
(with `clock` the advanced clock); with wind disabled the wind force is `0`;
with thrust noise disabled both noise factors are `1`. -/
theorem claim_C7_disturbances (cfg : DorneSim.DisturbanceConfig)
    (windTime deltaTime r1 r2 r3 : ℝ) :
    (cfg.wind.enabled = true →
      (DorneSim.calculateDisturbances cfg windTime deltaTime r1 r2 r3).newWindTime =
        windTime + deltaTime ∧
      (DorneSim.calculateDisturbances cfg windTime deltaTime r1 r2 r3).windForce =
        cfg.wind.baseSpeed +
          cfg.wind.gustMagnitude *
            Real.sin (2 * π * cfg.wind.gustFrequency * (windTime + deltaTime)) +
          (r1 - 0.5) * 2 * cfg.wind.turbulenceIntensity) ∧
    (cfg.wind.enabled = false →
      (DorneSim.calculateDisturbances cfg windTime deltaTime r1 r2 r3).windForce = 0 ∧
      (DorneSim.calculateDisturbances cfg windTime deltaTime r1 r2 r3).newWindTime = windTime) ∧
    (cfg.thrust.enabled = false →
      (DorneSim.calculateDisturbances cfg windTime deltaTime r1 r2 r3).noiseLeft = 1 ∧
      (DorneSim.calculateDisturbances cfg windTime deltaTime r1 r2 r3).noiseRight = 1) := by
  refine ⟨fun h => ⟨?_, ?_⟩, fun h => ⟨?_, ?_⟩, fun h => ⟨?_, ?_⟩⟩
  all_goals simp only [DorneSim.calculateDisturbances, h, if_true, Bool.false_eq_true, if_false]
  ring

/-- Claim C7 witness: a concrete enabled-wind, disabled-thrust-noise tick. -/
theorem claim_C7_witness :
    (DorneSim.calculateDisturbances ⟨⟨true, 1, 0, 0, 0⟩, ⟨false, 0, 0⟩⟩
        0 1 0.5 0.5 0.5).newWindTime = 0 + 1 ∧
    (DorneSim.calculateDisturbances ⟨⟨true, 1, 0, 0, 0⟩, ⟨false, 0, 0⟩⟩
        0 1 0.5 0.5 0.5).windForce =
      1 + 0 * Real.sin (2 * π * 0 * (0 + 1)) + (0.5 - 0.5) * 2 * 0 :=
  (claim_C7_disturbances ⟨⟨true, 1, 0, 0, 0⟩, ⟨false, 0, 0⟩⟩ 0 1 0.5 0.5 0.5).1 rfl

/-- Claim C9: in a drone tick the thrust is resolved through the pre-update
rotation `s.rotation` and the drag through the pre-update velocities, even
though the new angular velocity and rotation are computed earlier in the
tick; consequently the tick's position/velocity output is independent of
the state's angular velocity (through which the freshly computed rotation
would act), so the new rotation can only influence the thrust direction on
a later tick. -/
theorem claim_C9_pre_update_state (params : DorneSim.PhysicsParams)
    (s : DorneSim.PhysicsState) (lT rT wF nL nR dt w2 : ℝ) :
    ((DorneSim.unclampedStep params s lT rT wF nL nR dt).velocity.y =
      s.velocity.y +
        ((lT * params.LEFT_THRUST_EFFICIENCY * nL + rT * params.RIGHT_THRUST_EFFICIENCY * nR) *
            Real.cos s.rotation -
          params.MASS * params.GRAVITY -
          params.DRAG_COEFFICIENT * s.velocity.y * |s.velocity.y|) / params.MASS * dt) ∧
    ((DorneSim.unclampedStep params s lT rT wF nL nR dt).velocity.x =
      s.velocity.x +
        ((lT * params.LEFT_THRUST_EFFICIENCY * nL + rT * params.RIGHT_THRUST_EFFICIENCY * nR) *
            Real.sin s.rotation + wF -
          params.DRAG_COEFFICIENT * s.velocity.x * |s.velocity.x|) / params.MASS * dt) ∧
    (DorneSim.updatePhysics params { s with angularVelocity := w2 } lT rT wF nL nR dt).position.x =
      (DorneSim.updatePhysics params s lT rT wF nL nR dt).position.x ∧
    (DorneSim.updatePhysics params { s with angularVelocity := w2 } lT rT wF nL nR dt).position.y =
      (DorneSim.updatePhysics params s lT rT wF nL nR dt).position.y ∧
    (DorneSim.updatePhysics params { s with angularVelocity := w2 } lT rT wF nL nR dt).velocity.x =
      (DorneSim.updatePhysics params s lT rT wF nL nR dt).velocity.x ∧
    (DorneSim.updatePhysics params { s with angularVelocity := w2 } lT rT wF nL nR dt).velocity.y =
      (DorneSim.updatePhysics params s lT rT wF nL nR dt).velocity.y :=
  ⟨rfl, rfl, rfl, rfl, rfl, rfl⟩

/-- The JS remainder differs from the argument by an integer multiple of
the divisor. -/
theorem jsMod_eq_sub_intCast (a b : ℝ) : ∃ k : ℤ, jsMod a b = a - b * k :=
  ⟨truncInt (a / b), rfl⟩

/-- For a nonnegative dividend and positive divisor the JS remainder lies
in `[0, b)`. -/
theorem jsMod_nonneg_bounds (a b : ℝ) (hb : 0 < b) (ha : 0 ≤ a) :
    0 ≤ jsMod a b ∧ jsMod a b < b := by
  have hbne : b ≠ 0 := ne_of_gt hb
  have hquot : (0:ℝ) ≤ a / b := div_nonneg ha hb.le
  have htr : truncInt (a / b) = ⌊a / b⌋ := if_pos hquot
  have hfr : jsMod a b = b * Int.fract (a / b) := by
    rw [jsMod, truncInt, if_pos hquot, ← Int.self_sub_floor]
    field_simp
  constructor
  · rw [hfr]
    exact mul_nonneg hb.le (Int.fract_nonneg _)
  · rw [hfr]
    calc b * Int.fract (a / b) < b * 1 := by
          exact mul_lt_mul_of_pos_left (Int.fract_lt_one _) hb
      _ = b := mul_one b

/-- For a positive divisor the JS remainder lies in `(-b, b)`. -/
theorem jsMod_lt_bounds (a b : ℝ) (hb : 0 < b) : -b < jsMod a b ∧ jsMod a b < b := by
  by_cases ha : 0 ≤ a
  · have h := jsMod_nonneg_bounds a b hb ha
    exact ⟨by linarith, h.2⟩
  · push_neg at ha
    have hbne : b ≠ 0 := ne_of_gt hb
    have hquot : ¬ (0:ℝ) ≤ a / b := by
      push_neg
      exact div_neg_of_neg_of_pos ha hb
    have hba : b * (a / b) = a := by field_simp
    have h1 : (a / b : ℝ) ≤ ⌈a / b⌉ := Int.le_ceil _
    have h2 : ((⌈a / b⌉ : ℤ) : ℝ) < a / b + 1 := Int.ceil_lt_add_one _
    have hml : b * (a / b) ≤ b * ((⌈a / b⌉ : ℤ) : ℝ) := mul_le_mul_of_nonneg_left h1 hb.le
    have hmr : b * ((⌈a / b⌉ : ℤ) : ℝ) < b * (a / b + 1) := mul_lt_mul_of_pos_left h2 hb
    rw [jsMod, truncInt, if_neg hquot]
    constructor
    · nlinarith
    · nlinarith

/-- The normalised angle lies in `(-π, π]`. -/
theorem CartPole.normalizeAngle_mem_Ioc (t : ℝ) : normalizeAngle t ∈ Set.Ioc (-π) π := by
  have h2pi : (0:ℝ) < 2 * π := by positivity
  obtain ⟨hr1l, hr1u⟩ := jsMod_lt_bounds t (2 * π) h2pi
  have harg : 0 ≤ jsMod t (2 * π) + 2 * π := by linarith
  obtain ⟨hNl, hNu⟩ := jsMod_nonneg_bounds (jsMod t (2 * π) + 2 * π) (2 * π) h2pi harg
  simp only [normalizeAngle, Set.mem_Ioc]
  by_cases hgt : jsMod (jsMod t (2 * π) + 2 * π) (2 * π) > π
  · rw [if_pos hgt]
    exact ⟨by linarith, by linarith [Real.pi_pos]⟩
  · rw [if_neg hgt]
    push_neg at hgt
    exact ⟨by linarith [Real.pi_pos], hgt⟩

/-- The normalised angle differs from the input angle by an integer
multiple of `2π`. -/
theorem CartPole.normalizeAngle_sub_int (t : ℝ) :
    ∃ k : ℤ, normalizeAngle t = t + 2 * π * k := by
  obtain ⟨k1, h1⟩ := jsMod_eq_sub_intCast t (2 * π)
  obtain ⟨k2, h2⟩ := jsMod_eq_sub_intCast (jsMod t (2 * π) + 2 * π) (2 * π)
  simp only [normalizeAngle]
  by_cases hgt : jsMod (jsMod t (2 * π) + 2 * π) (2 * π) > π
  · rw [if_pos hgt]
    refine ⟨-k1 - k2, ?_⟩
    rw [h2, h1]
    push_cast
    ring
  · rw [if_neg hgt]
    refine ⟨1 - k1 - k2, ?_⟩
    rw [h2, h1]
    push_cast
    ring

/-- Normalisation is the identity on `(-π, π]`. -/
theorem CartPole.normalizeAngle_eq_self (t : ℝ) (ht : t ∈ Set.Ioc (-π) π) :
    normalizeAngle t = t := by
  obtain ⟨htl, htu⟩ := ht
  have hpi : (0:ℝ) < π := Real.pi_pos
  have h2pi : (0:ℝ) < 2 * π := by linarith
  have hr1 : jsMod t (2 * π) = t := by
    by_cases ha : 0 ≤ t
    · have hq : (0:ℝ) ≤ t / (2 * π) := div_nonneg ha h2pi.le
      have hfl : ⌊t / (2 * π)⌋ = 0 := by
        rw [Int.floor_eq_zero_iff, Set.mem_Ico]
        exact ⟨hq, by rw [div_lt_one h2pi]; linarith⟩
      rw [jsMod, truncInt, if_pos hq, hfl]
      push_cast
      ring
    · push_neg at ha
      have hq : ¬ (0:ℝ) ≤ t / (2 * π) := by
        push_neg
        exact div_neg_of_neg_of_pos ha h2pi
      have hcl : ⌈t / (2 * π)⌉ = 0 := by
        rw [Int.ceil_eq_zero_iff, Set.mem_Ioc]
        constructor
        · rw [lt_div_iff₀ h2pi]; linarith
        · exact le_of_lt (div_neg_of_neg_of_pos ha h2pi)
      rw [jsMod, truncInt, if_neg hq, hcl]
      push_cast
      ring
  have harg0 : (0:ℝ) ≤ t + 2 * π := by linarith
  have hq2 : (0:ℝ) ≤ (t + 2 * π) / (2 * π) := div_nonneg harg0 h2pi.le
  simp only [normalizeAngle]
  rw [hr1]
  by_cases ha : 0 ≤ t
  · have hN : jsMod (t + 2 * π) (2 * π) = t := by
      have hfl : ⌊(t + 2 * π) / (2 * π)⌋ = 1 := by
        rw [Int.floor_eq_iff]
        constructor
        · push_cast
          rw [le_div_iff₀ h2pi]
          linarith
        · push_cast
          rw [div_lt_iff₀ h2pi]
          linarith
      rw [jsMod, truncInt, if_pos hq2, hfl]
      push_cast
      ring
    rw [hN, if_neg (not_lt.mpr htu)]
  · push_neg at ha
    have hN : jsMod (t + 2 * π) (2 * π) = t + 2 * π := by
      have hfl : ⌊(t + 2 * π) / (2 * π)⌋ = 0 := by
        rw [Int.floor_eq_zero_iff, Set.mem_Ico]
        exact ⟨hq2, by rw [div_lt_one h2pi]; linarith⟩
      rw [jsMod, truncInt, if_pos hq2, hfl]
      push_cast
      ring
    rw [hN, if_pos (by linarith : t + 2 * π > π)]
    ring

/-- The per-step controller `target` is never modified by
`calculatePIDControl`. -/
theorem CartPole.pidIterate_target (state : CartPoleState) (controller : PIDController)
    (n : ℕ) : (pidIterate state controller n).target = controller.target := by
  induction n with
  | zero => rfl
  | succ n ih =>
      simp only [pidIterate, calculatePIDControl]
      exact ih

/-- Closed form of the integral accumulator after `n` identical
`calculatePIDControl` calls: no clamping ever applies to it. -/
theorem CartPole.pidIterate_integral (state : CartPoleState) (controller : PIDController)
    (n : ℕ) : (pidIterate state controller n).integral =
      controller.integral + n * ((state.theta - controller.target) * dt) := by
  induction n with
  | zero => simp [pidIterate]
  | succ n ih =>
      simp only [pidIterate, calculatePIDControl]
      rw [ih, CartPole.pidIterate_target]
      push_cast
      ring

/-- Claim C6: for every real angle the cart-pole normalisation returns a
value in `(-π, π]`, and on an already-normalised angle it is the
identity. -/
theorem claim_C6_normalize :
    (∀ t : ℝ, CartPole.normalizeAngle t ∈ Set.Ioc (-π) π) ∧
    (∀ t : ℝ, t ∈ Set.Ioc (-π) π → CartPole.normalizeAngle t = t) :=
  ⟨CartPole.normalizeAngle_mem_Ioc, CartPole.normalizeAngle_eq_self⟩

/-- Claim C6 witness: the already-normalised angle `1`. -/
theorem claim_C6_witness :
    CartPole.normalizeAngle 1 ∈ Set.Ioc (-π) π ∧ CartPole.normalizeAngle 1 = 1 :=
  ⟨claim_C6_normalize.1 1,
    claim_C6_normalize.2 1 (Set.mem_Ioc.mpr
      ⟨by linarith [Real.pi_gt_three], by linarith [Real.pi_gt_three]⟩)⟩

/-- Claim C2: one cart-pole tick computes the pole angular acceleration as
`(g sinθ (M+m) - (F + m l θ'^2 sinθ) cosθ) / (l (M+m - m cos²θ))`, the
cart acceleration with the pole-force term both added and subtracted,
advances position and angle by the pre-update velocities times `dt`, then
the velocities by the accelerations times `dt`, wraps the angle into
`(-π, π]` (changing it by a multiple of `2π`), and increments the score by
exactly one. -/
theorem claim_C2_cartpole_tick (s : CartPole.CartPoleState) (F : ℝ) :
    (CartPole.updatePhysics s F).x = s.x + s.dx * CartPole.dt ∧
    (CartPole.updatePhysics s F).dtheta = s.dtheta +
      (CartPole.gravity * Real.sin s.theta * (CartPole.cartMass + CartPole.poleMass) -
        (F + CartPole.poleMass * CartPole.poleLength * s.dtheta ^ 2 * Real.sin s.theta) *
          Real.cos s.theta) /
      (CartPole.poleLength *
        (CartPole.cartMass + CartPole.poleMass - CartPole.poleMass * Real.cos s.theta ^ 2)) *
      CartPole.dt ∧
    (CartPole.updatePhysics s F).dx = s.dx +
      (F + CartPole.poleMass * CartPole.poleLength * s.dtheta ^ 2 * Real.sin s.theta +
        CartPole.poleMass * CartPole.poleLength *
          ((CartPole.gravity * Real.sin s.theta * (CartPole.cartMass + CartPole.poleMass) -
            (F + CartPole.poleMass * CartPole.poleLength * s.dtheta ^ 2 * Real.sin s.theta) *
              Real.cos s.theta) /
            (CartPole.poleLength *
              (CartPole.cartMass + CartPole.poleMass -
                CartPole.poleMass * Real.cos s.theta ^ 2))) *
          Real.cos s.theta -
        CartPole.poleMass * CartPole.poleLength * s.dtheta ^ 2 * Real.sin s.theta) /
      (CartPole.cartMass + CartPole.poleMass) * CartPole.dt ∧
    (CartPole.updatePhysics s F).theta ∈ Set.Ioc (-π) π ∧
    (∃ k : ℤ, (CartPole.updatePhysics s F).theta =
      s.theta + s.dtheta * CartPole.dt + 2 * π * k) ∧
    (CartPole.updatePhysics s F).score = s.score + 1 := by
  refine ⟨rfl, ?_, ?_, ?_, ?_, rfl⟩
  · simp only [CartPole.updatePhysics, CartPole.totalMass]
    ring_nf
  · simp only [CartPole.updatePhysics, CartPole.totalMass]
    ring_nf
  · exact CartPole.normalizeAngle_mem_Ioc _
  · exact CartPole.normalizeAngle_sub_int _

/-- Claim C4: if the freshly computed state violates `|x| ≤ 2.4` or
`|θ| ≤ π/2` the tick halts the run and retains the previous state,
discarding the violating one (and with it its incremented score);
otherwise the new state is retained and the run continues. -/
theorem claim_C4_halt_policy (s : CartPole.CartPoleState) (F : ℝ) :
    ((|(CartPole.updatePhysics s F).x| > 2.4 ∨
        |(CartPole.updatePhysics s F).theta| > π * 0.5) →
      CartPole.intervalTick s F = (false, s)) ∧
    (¬(|(CartPole.updatePhysics s F).x| > 2.4 ∨
        |(CartPole.updatePhysics s F).theta| > π * 0.5) →
      CartPole.intervalTick s F = (true, CartPole.updatePhysics s F)) := by
  constructor
  · intro h
    simp only [CartPole.intervalTick]
    rw [if_pos h]
  · intro h
    simp only [CartPole.intervalTick]
    rw [if_neg h]

/-- Claim C4 witness: a state whose next tick lands at `x = 10 > 2.4` is
halted and the pre-violation state is retained. -/
theorem claim_C4_witness :
    (|(CartPole.updatePhysics ⟨10, 0, 0, 0, 0⟩ 0).x| > 2.4 ∨
      |(CartPole.updatePhysics ⟨10, 0, 0, 0, 0⟩ 0).theta| > π * 0.5) ∧
    CartPole.intervalTick ⟨10, 0, 0, 0, 0⟩ 0 = (false, ⟨10, 0, 0, 0, 0⟩) := by
  have hx10 : (CartPole.updatePhysics (⟨10, 0, 0, 0, 0⟩ : CartPole.CartPoleState) 0).x = 10 := by
    simp only [CartPole.updatePhysics]
    norm_num
  have hx : |(CartPole.updatePhysics (⟨10, 0, 0, 0, 0⟩ : CartPole.CartPoleState) 0).x| > 2.4 := by
    rw [hx10, abs_of_nonneg (by norm_num : (0:ℝ) ≤ 10)]
    norm_num
  exact ⟨Or.inl hx, (claim_C4_halt_policy ⟨10, 0, 0, 0, 0⟩ 0).1 (Or.inl hx)⟩

/-- Claim C10: the cart-pole autopilot computes the error as
`measured θ - target` (the opposite of the reusable controller's
`setpoint - measured` convention), accumulates its integral with no
anti-windup clamp — after `n` ticks of constant error the integral is
exactly `integral + n·error·dt`, and under a sustained nonzero error it
exceeds every bound — and clamps only the final output into `[-15, 15]`. -/
theorem claim_C10_cartpole_pid (s : CartPole.CartPoleState) (c : CartPole.PIDController) :
    (CartPole.calculatePIDControl s c).2.lastError = s.theta - c.target ∧
    s.theta - c.target = -(c.target - s.theta) ∧
    (CartPole.calculatePIDControl s c).2.integral =
      c.integral + (s.theta - c.target) * CartPole.dt ∧
    (CartPole.calculatePIDControl s c).1 =
      max (-15) (min 15
        (c.kp * (s.theta - c.target) +
          c.ki * (c.integral + (s.theta - c.target) * CartPole.dt) +
          c.kd * ((s.theta - c.target - c.lastError) / CartPole.dt))) ∧
    (∀ n : ℕ, (CartPole.pidIterate s c n).integral =
      c.integral + n * ((s.theta - c.target) * CartPole.dt)) ∧
    (s.theta - c.target ≠ 0 → ∀ B : ℝ, ∃ n : ℕ,
      B < |(CartPole.pidIterate s c n).integral|) := by
  refine ⟨rfl, by ring, rfl, ?_, CartPole.pidIterate_integral s c, ?_⟩
  · simp only [CartPole.calculatePIDControl, CartPole.maxForce]
    norm_num
  · intro he B
    have hdt : (0:ℝ) < CartPole.dt := by norm_num [CartPole.dt]
    have habs : 0 < |s.theta - c.target| := abs_pos.mpr he
    have hpos : 0 < |s.theta - c.target| * CartPole.dt := mul_pos habs hdt
    obtain ⟨n, hn⟩ := exists_nat_gt ((B + |c.integral|) / (|s.theta - c.target| * CartPole.dt))
    refine ⟨n, ?_⟩
    rw [div_lt_iff₀ hpos] at hn
    rw [CartPole.pidIterate_integral s c n]
    have h3 : |(n : ℝ) * ((s.theta - c.target) * CartPole.dt)| =
        n * (|s.theta - c.target| * CartPole.dt) := by
      rw [abs_mul, abs_mul, Nat.abs_cast, abs_of_pos hdt]
    have h4 : |(n : ℝ) * ((s.theta - c.target) * CartPole.dt)| ≤
        |c.integral + (n : ℝ) * ((s.theta - c.target) * CartPole.dt)| + |c.integral| := by
      have habsadd := abs_add
        (c.integral + (n : ℝ) * ((s.theta - c.target) * CartPole.dt)) (-c.integral)
      rw [abs_neg] at habsadd
      have heq : c.integral + (n : ℝ) * ((s.theta - c.target) * CartPole.dt) + -c.integral =
          (n : ℝ) * ((s.theta - c.target) * CartPole.dt) := by ring
      rw [heq] at habsadd
      exact habsadd
    rw [h3] at h4
    linarith

/-- Claim C10 witness: the default controller (`target 0, kp 30, ki 0.1,
kd 10`) measured at the fixed angle `θ = 1` exceeds integral magnitude
`1000` after finitely many ticks. -/
theorem claim_C10_witness :
    ∃ n : ℕ, (1000:ℝ) <
      |(CartPole.pidIterate ⟨0, 1, 0, 0, 0⟩ ⟨0, 30, 0.1, 10, 0, 0⟩ n).integral| :=
  (claim_C10_cartpole_pid ⟨0, 1, 0, 0, 0⟩ ⟨0, 30, 0.1, 10, 0, 0⟩).2.2.2.2.2
    (by norm_num) 1000
